import Mathlib

/-!
Verification development for the ElevenLabs text-to-speech adapter
(`src/pipecat/services/elevenlabs.py`).

The file is a shallow embedding of the adapter: its configuration state,
its pure helper `sample_rate_from_output_format`, and its operations
(`__init__`, `set_model`, `set_voice`, `can_generate_metrics`, `run_tts`).
The asynchronous generator `run_tts` is embedded as a pure function from
the adapter state, the input text and the vendor stream behaviour (the
ordered list of byte chunks the vendor delivers, plus whether the stream
raises an error after delivering them) to the ordered list of side
effects and yields it performs, together with a flag saying whether the
vendor error propagated out of the call.  The frame types
(`TTSStartedFrame`, `AudioRawFrame`, `TTSStoppedFrame`) and the metric /
logging calls inherited from the enclosing pipeline are modelled as
uninterpreted events recorded in that effect trace, in program order.
-/

/-- Audio bytes: a chunk delivered by the vendor stream is a byte string,
modelled as a list of naturals. -/
def ByteChunk : Type := List Nat

instance : DecidableEq ByteChunk := by
  unfold ByteChunk
  infer_instance

/-- The frame vocabulary used by the adapter: `TTSStartedFrame`,
`AudioRawFrame(audio, sample_rate, num_channels)` and `TTSStoppedFrame`
from `pipecat.frames.frames`.  Only the constructors the adapter emits
are modelled. -/
inductive Frame : Type
  | ttsStarted : Frame
  | audioRaw (audio : ByteChunk) (sample_rate : Int) (num_channels : Int) : Frame
  | ttsStopped : Frame
  deriving DecidableEq

/-- `VoiceSettings` is a vendor-defined structured settings value from the
external `elevenlabs` SDK.  The adapter never inspects it — it only stores
and forwards it — so it is modelled as an uninterpreted payload. -/
structure VoiceSettings : Type where
  payload : String
  deriving DecidableEq

/-- The vendor client handle `AsyncElevenLabs(api_key=...)`: an external
collaborator, modelled by the credential it is bound to. -/
structure AsyncElevenLabs : Type where
  api_key : String
  deriving DecidableEq

/-- The streaming synthesis request `self._client.generate(...)` issues to
the vendor: source lines 81-89. -/
structure GenerateRequest : Type where
  text : String
  voice : String
  model : String
  output_format : String
  voice_settings : Option VoiceSettings
  optimize_streaming_latency : Int
  stream : Bool
  deriving DecidableEq

/-- One observable side effect or yield of an adapter operation, recorded
in program order.  `logDebug`, the two metric starts, the ttfb metric
stop and `push_frame` are calls into the enclosing pipeline / logger;
`vendorGenerate` is the single network call; `yieldFrame` is a value
yielded by the `run_tts` generator. -/
inductive Effect : Type
  | logDebug (msg : String) : Effect
  | startTTSUsageMetrics (text : String) : Effect
  | startTTFBMetrics : Effect
  | vendorGenerate (req : GenerateRequest) : Effect
  | pushFrame (frame : Frame) : Effect
  | stopTTFBMetrics : Effect
  | yieldFrame (frame : Frame) : Effect
  deriving DecidableEq

/-- `sample_rate_from_output_format` (source lines 28-38): a four-way
match on the output-format string, falling back to 16000 when no case
matches. -/
def sample_rate_from_output_format (output_format : String) : Int :=
  match output_format with
  | "pcm_16000" => 16000
  | "pcm_22050" => 22050
  | "pcm_24000" => 24000
  | "pcm_44100" => 44100
  | _ => 16000

/-- Instrumented copy of `sample_rate_from_output_format` that also
reports whether the final fallback (no case matched) was the branch
taken.  Used to state reachability of the fallback branch; the lemma
`sample_rate_branch_fst` proves it agrees with the source function. -/
def sample_rate_branch (output_format : String) : Int × Bool :=
  match output_format with
  | "pcm_16000" => (16000, false)
  | "pcm_22050" => (22050, false)
  | "pcm_24000" => (24000, false)
  | "pcm_44100" => (44100, false)
  | _ => (16000, true)

/-- The four format strings admitted by the `Literal` type annotation of
`InputParams.output_format` (source line 42). -/
def validOutputFormat (s : String) : Bool :=
  s == "pcm_16000" || s == "pcm_22050" || s == "pcm_24000" || s == "pcm_44100"

/-- `ElevenLabsTTSService.InputParams` (source lines 41-42): a pydantic
model whose single field `output_format` is constrained by
`Literal["pcm_16000", "pcm_22050", "pcm_24000", "pcm_44100"]` (default
`"pcm_16000"`); pydantic rejects any other string at validation time,
which the embedding renders as the proof field `valid`. -/
structure InputParams : Type where
  output_format : String
  valid : validOutputFormat output_format = true

/-- The adapter's state: the fields assigned in `__init__`
(source lines 56-62). -/
structure ElevenLabsTTSService : Type where
  _voice_id : String
  _model : String
  _params : InputParams
  _voice_settings : Option VoiceSettings
  _client : AsyncElevenLabs
  _optimize_streaming_latency : Int
  _sample_rate : Int

/-- `ElevenLabsTTSService.__init__` (source lines 44-62).  Python
defaults (`model="eleven_turbo_v2_5"`, `voice_settings=None`,
`params=InputParams()`, `optimize_streaming_latency=0`) are passed
explicitly here.  The vendor client is constructed from the credential
and the sample rate is precomputed from the output format. -/
def ElevenLabsTTSService.init (api_key : String) (voice_id : String)
    (model : String) (voice_settings : Option VoiceSettings)
    (params : InputParams) (optimize_streaming_latency : Int) :
    ElevenLabsTTSService :=
  { _voice_id := voice_id
    _model := model
    _params := params
    _voice_settings := voice_settings
    _client := { api_key := api_key }
    _optimize_streaming_latency := optimize_streaming_latency
    _sample_rate := sample_rate_from_output_format params.output_format }

/-- `can_generate_metrics` (source lines 64-65): always `True`, touches
no state. -/
def ElevenLabsTTSService.can_generate_metrics
    (_s : ElevenLabsTTSService) : Bool :=
  true

/-- `set_model` (source lines 67-69): logs, then overwrites `_model`.
Returns the updated state together with the effects performed. -/
def ElevenLabsTTSService.set_model (s : ElevenLabsTTSService)
    (model : String) : ElevenLabsTTSService × List Effect :=
  ({ s with _model := model },
   [Effect.logDebug ("Switching TTS model to: [" ++ model ++ "]")])

/-- `set_voice` (source lines 71-73): logs, then overwrites `_voice_id`.
Returns the updated state together with the effects performed. -/
def ElevenLabsTTSService.set_voice (s : ElevenLabsTTSService)
    (voice : String) : ElevenLabsTTSService × List Effect :=
  ({ s with _voice_id := voice },
   [Effect.logDebug ("Switching TTS voice to: [" ++ voice ++ "]")])

/-- Behaviour of the vendor stream returned by `self._client.generate`:
the chunks it delivers, in order, and whether it raises an error once
those chunks have been delivered (`raisesError` with `chunks = []`
models a failure of the generate call itself or an error before the
first chunk). -/
structure VendorStream : Type where
  chunks : List ByteChunk
  raisesError : Bool

/-- The `async for audio in results:` loop body of `run_tts` (source
lines 92-100): on each chunk, push `TTSStartedFrame` first if not yet
started, then stop the ttfb metric, then yield the audio frame stamped
with the precomputed sample rate and one channel. -/
def ttsLoop (sample_rate : Int) : List ByteChunk → Bool → List Effect
  | [], _ => []
  | audio :: rest, tts_started =>
    (if tts_started then [] else [Effect.pushFrame Frame.ttsStarted])
      ++ Effect.stopTTFBMetrics
        :: Effect.yieldFrame (Frame.audioRaw audio sample_rate 1)
        :: ttsLoop sample_rate rest true

/-- `run_tts` (source lines 75-102), as a function from the adapter
state, the text and the vendor stream behaviour to the effect trace and
a flag reporting whether the vendor error propagated out of the call
(the code catches nothing, so the flag is exactly
`vendor.raisesError`).  When the stream ends without error,
`TTSStoppedFrame` is pushed after the loop; when it raises, the
generator aborts with the trace produced so far and no stopped frame. -/
def ElevenLabsTTSService.run_tts (s : ElevenLabsTTSService) (text : String)
    (vendor : VendorStream) : List Effect × Bool :=
  let pre : List Effect :=
    [Effect.logDebug ("Generating TTS: [" ++ text ++ "]"),
     Effect.startTTSUsageMetrics text,
     Effect.startTTFBMetrics,
     Effect.vendorGenerate
       { text := text
         voice := s._voice_id
         model := s._model
         output_format := s._params.output_format
         voice_settings := s._voice_settings
         optimize_streaming_latency := s._optimize_streaming_latency
         stream := true }]
  let body := ttsLoop s._sample_rate vendor.chunks false
  if vendor.raisesError then
    (pre ++ body, true)
  else
    (pre ++ body ++ [Effect.pushFrame Frame.ttsStopped], false)

/-- The output sequence of a `run_tts` call: the frames passed to
`push_frame` and the frames yielded by the generator, combined in
program order. -/
def outputFrames (es : List Effect) : List Frame :=
  es.filterMap fun e =>
    match e with
    | Effect.pushFrame f => some f
    | Effect.yieldFrame f => some f
    | _ => none

/-- Only the frames yielded by the generator, in order. -/
def yieldedFrames (es : List Effect) : List Frame :=
  es.filterMap fun e =>
    match e with
    | Effect.yieldFrame f => some f
    | _ => none

/-- Recognizer for the ttfb-stop effect. -/
def isStopTTFB : Effect → Bool
  | Effect.stopTTFBMetrics => true
  | _ => false

/-- How many times a trace stops the time-to-first-byte metric. -/
def ttfbStopCount (es : List Effect) : Nat :=
  es.countP isStopTTFB

/-- Recognizer for the single network effect, the vendor generate call. -/
def isVendorCall : Effect → Bool
  | Effect.vendorGenerate _ => true
  | _ => false

/-- The network I/O performed by a trace. -/
def networkEffects (es : List Effect) : List Effect :=
  es.filter isVendorCall

/-- The sample rates stamped on the audio frames yielded by a trace, in
order. -/
def audioFrameRates (es : List Effect) : List Int :=
  es.filterMap fun e =>
    match e with
    | Effect.yieldFrame (Frame.audioRaw _ r _) => some r
    | _ => none

/-- One invocation of a public adapter operation, for reasoning about
the adapter state over its lifetime. -/
inductive AdapterOp : Type
  | setModel (model : String) : AdapterOp
  | setVoice (voice : String) : AdapterOp
  | canGenerateMetrics : AdapterOp
  | runTTS (text : String) (vendor : VendorStream) : AdapterOp

/-- The adapter state after one public operation.  `set_model` and
`set_voice` update their one field (source lines 69 and 73);
`can_generate_metrics` and `run_tts` assign to no attribute in the
source, so they leave the state unchanged. -/
def applyOp (s : ElevenLabsTTSService) : AdapterOp → ElevenLabsTTSService
  | AdapterOp.setModel m => (s.set_model m).1
  | AdapterOp.setVoice v => (s.set_voice v).1
  | AdapterOp.canGenerateMetrics => s
  | AdapterOp.runTTS _ _ => s

/-- The adapter state after a sequence of public operations. -/
def applyOps (s : ElevenLabsTTSService) : List AdapterOp → ElevenLabsTTSService
  | [] => s
  | op :: rest => applyOps (applyOp s op) rest

/-- A concrete adapter built with all Python defaults
(`output_format = "pcm_16000"`). -/
def svcDefault : ElevenLabsTTSService :=
  ElevenLabsTTSService.init "api-key" "voice-id" "eleven_turbo_v2_5" none
    (InputParams.mk "pcm_16000" rfl) 0

/-- A concrete adapter built with `output_format = "pcm_24000"`, as in
the spec's worked example. -/
def svc24 : ElevenLabsTTSService :=
  ElevenLabsTTSService.init "api-key" "voice-id" "eleven_turbo_v2_5" none
    (InputParams.mk "pcm_24000" rfl) 0

/-! ## Helper lemmas -/

/-- The instrumented branch tracker agrees with the source function on
the computed sample rate. -/
theorem sample_rate_branch_fst (s : String) :
    (sample_rate_branch s).1 = sample_rate_from_output_format s := by
  unfold sample_rate_branch sample_rate_from_output_format
  split <;> simp_all

/-- `outputFrames` distributes over trace concatenation. -/
theorem outputFrames_append (a b : List Effect) :
    outputFrames (a ++ b) = outputFrames a ++ outputFrames b := by
  simp [outputFrames]

/-- Once started, the loop's pushed/yielded frames are exactly the audio
frames of the remaining chunks, in order. -/
theorem outputFrames_ttsLoop_true (sr : Int) (chunks : List ByteChunk) :
    outputFrames (ttsLoop sr chunks true)
      = chunks.map (fun c => Frame.audioRaw c sr 1) := by
  induction chunks with
  | nil => rfl
  | cons c rest ih => simp [ttsLoop, outputFrames, List.filterMap_cons] at ih ⊢; exact ih

/-- From the not-yet-started state on a nonempty stream, the loop emits
the started marker and then the audio frames in order. -/
theorem outputFrames_ttsLoop_false (sr : Int) (c : ByteChunk) (rest : List ByteChunk) :
    outputFrames (ttsLoop sr (c :: rest) false)
      = Frame.ttsStarted :: (c :: rest).map (fun c => Frame.audioRaw c sr 1) := by
  have h := outputFrames_ttsLoop_true sr rest
  simp [ttsLoop, outputFrames, List.filterMap_cons] at h ⊢
  exact h

/-- The loop yields exactly one audio frame per chunk, in delivery
order, independent of the started flag. -/
theorem yieldedFrames_ttsLoop (sr : Int) (chunks : List ByteChunk) (b : Bool) :
    yieldedFrames (ttsLoop sr chunks b)
      = chunks.map (fun c => Frame.audioRaw c sr 1) := by
  induction chunks generalizing b with
  | nil => rfl
  | cons c rest ih =>
    have h := ih true
    cases b <;> simp [ttsLoop, yieldedFrames, List.filterMap_cons] at h ⊢ <;> exact h

/-- The loop stops the ttfb metric once per chunk, independent of the
started flag. -/
theorem ttfbStopCount_ttsLoop (sr : Int) (chunks : List ByteChunk) (b : Bool) :
    ttfbStopCount (ttsLoop sr chunks b) = chunks.length := by
  induction chunks generalizing b with
  | nil => rfl
  | cons c rest ih =>
    have h := ih true
    cases b <;> simp [ttsLoop, ttfbStopCount, isStopTTFB, List.countP_cons] at h ⊢ <;>
      exact h

/-- Every audio frame the loop yields is stamped with the given sample
rate. -/
theorem audioFrameRates_ttsLoop (sr : Int) (chunks : List ByteChunk) (b : Bool) :
    audioFrameRates (ttsLoop sr chunks b) = List.replicate chunks.length sr := by
  induction chunks generalizing b with
  | nil => rfl
  | cons c rest ih =>
    have h := ih true
    cases b <;> simp [ttsLoop, audioFrameRates, List.filterMap_cons, List.replicate] at h ⊢ <;>
      exact h

/-- A sequence of public operations never changes `_sample_rate` or
`_params`. -/
theorem applyOps_preserves (s : ElevenLabsTTSService) (ops : List AdapterOp) :
    (applyOps s ops)._sample_rate = s._sample_rate
      ∧ (applyOps s ops)._params = s._params := by
  induction ops generalizing s with
  | nil => exact ⟨rfl, rfl⟩
  | cons op rest ih =>
    cases op <;>
      simpa [applyOps, applyOp, ElevenLabsTTSService.set_model,
        ElevenLabsTTSService.set_voice] using ih _

/-! ## Claim theorems -/

/-- C4: for each of the four recognized output-format strings,
`sample_rate_from_output_format` returns the matching integer rate. -/
theorem sample_rate_recognized_mapping :
    sample_rate_from_output_format "pcm_16000" = 16000
      ∧ sample_rate_from_output_format "pcm_22050" = 22050
      ∧ sample_rate_from_output_format "pcm_24000" = 24000
      ∧ sample_rate_from_output_format "pcm_44100" = 44100 :=
  ⟨rfl, rfl, rfl, rfl⟩

/-- C5: for every output-format string other than the four recognized
values, `sample_rate_from_output_format` returns 16000.  The embedded
function is total, so no error is raised or signalled. -/
theorem sample_rate_unrecognized_fallback (s : String)
    (h : validOutputFormat s = false) :
    sample_rate_from_output_format s = 16000 := by
  unfold validOutputFormat at h
  simp only [Bool.or_eq_false_iff, beq_eq_false_iff_ne, ne_eq] at h
  unfold sample_rate_from_output_format
  split <;> simp_all

/-- C5 witness: the unrecognized format string "mp3_44100" maps to
16000. -/
theorem sample_rate_unrecognized_fallback_witness :
    validOutputFormat "mp3_44100" = false
      ∧ sample_rate_from_output_format "mp3_44100" = 16000 :=
  ⟨by decide, sample_rate_unrecognized_fallback "mp3_44100" (by decide)⟩

/-- C1 counterexample: on a call whose vendor stream delivers two
chunks, the ttfb-stop effect occurs twice, not exactly once —
`stop_ttfb_metrics` (source line 98) sits inside the loop body, outside
the `if not tts_started` guard. -/
theorem ttfb_stop_counterexample_two_chunks :
    ttfbStopCount (svcDefault.run_tts "hello" (VendorStream.mk [[0], [1]] false)).1 = 2 := by
  rfl

/-- C1 amended: the ttfb-stop effect occurs once per delivered chunk —
N times for a stream delivering N chunks — recurring on every chunk
rather than only on the first. -/
theorem ttfb_stop_once_per_chunk (s : ElevenLabsTTSService) (text : String)
    (chunks : List ByteChunk) (err : Bool) :
    ttfbStopCount (s.run_tts text (VendorStream.mk chunks err)).1 = chunks.length := by
  have h := ttfbStopCount_ttsLoop s._sample_rate chunks false
  cases err <;>
    simp [ElevenLabsTTSService.run_tts, ttfbStopCount, isStopTTFB,
      List.countP_append, List.countP_cons] at h ⊢ <;>
    exact h

/-- C2: on an error-free call delivering at least one chunk, the pushed
and yielded frames, in order, are exactly one started marker, the N
audio frames in delivery order, then one stopped marker. -/
theorem run_tts_output_sequence_nonempty (s : ElevenLabsTTSService)
    (text : String) (chunks : List ByteChunk) (h : chunks ≠ []) :
    outputFrames (s.run_tts text (VendorStream.mk chunks false)).1
      = Frame.ttsStarted
          :: chunks.map (fun c => Frame.audioRaw c s._sample_rate 1)
          ++ [Frame.ttsStopped] := by
  obtain ⟨c, rest, rfl⟩ := List.exists_cons_of_ne_nil h
  have hb := outputFrames_ttsLoop_false s._sample_rate c rest
  have key : outputFrames (s.run_tts text (VendorStream.mk (c :: rest) false)).1
      = outputFrames (ttsLoop s._sample_rate (c :: rest) false) ++ [Frame.ttsStopped] := by
    simp [ElevenLabsTTSService.run_tts, outputFrames, List.filterMap_append,
      List.filterMap_cons]
  rw [key, hb]

/-- C2 witness: the spec's worked example — format `pcm_24000`, text
"hello", three vendor chunks — yields exactly started, three audio
frames at rate 24000 with one channel, stopped. -/
theorem run_tts_output_sequence_nonempty_witness :
    ([[1], [2], [3]] : List ByteChunk) ≠ []
      ∧ outputFrames (svc24.run_tts "hello" (VendorStream.mk [[1], [2], [3]] false)).1
          = [Frame.ttsStarted, Frame.audioRaw [1] 24000 1,
             Frame.audioRaw [2] 24000 1, Frame.audioRaw [3] 24000 1,
             Frame.ttsStopped] :=
  ⟨by decide,
   by exact run_tts_output_sequence_nonempty svc24 "hello" [[1], [2], [3]] (by decide)⟩

/-- C3: on an error-free call delivering zero chunks, the pushed and
yielded frames are exactly one stopped marker — no started marker and
no audio. -/
theorem run_tts_empty_stream_output (s : ElevenLabsTTSService) (text : String) :
    outputFrames (s.run_tts text (VendorStream.mk [] false)).1 = [Frame.ttsStopped] := by
  simp [ElevenLabsTTSService.run_tts, ttsLoop, outputFrames, List.filterMap_cons]

/-- C6: every delivered chunk is forwarded unchanged, in delivery order,
as an audio frame stamped with the sample rate precomputed from the
output format at construction time and with channel count 1 — on
error-free and erroring streams alike. -/
theorem run_tts_forwards_chunks_unchanged (api_key voice_id model : String)
    (voice_settings : Option VoiceSettings) (params : InputParams)
    (lat : Int) (text : String) (vendor : VendorStream) :
    yieldedFrames
        ((ElevenLabsTTSService.init api_key voice_id model voice_settings params lat).run_tts
          text vendor).1
      = vendor.chunks.map
          (fun c =>
            Frame.audioRaw c (sample_rate_from_output_format params.output_format) 1) := by
  obtain ⟨chunks, err⟩ := vendor
  have h := yieldedFrames_ttsLoop (sample_rate_from_output_format params.output_format)
    chunks false
  cases err <;>
    simp [ElevenLabsTTSService.run_tts, ElevenLabsTTSService.init, yieldedFrames,
      List.filterMap_append, List.filterMap_cons] at h ⊢ <;>
    exact h

/-- C7: when the vendor stream raises, the error propagates out of
`run_tts` (nothing is caught) and no stopped marker is ever emitted —
the output produced before the error is left as is. -/
theorem run_tts_error_propagates_no_stop (s : ElevenLabsTTSService)
    (text : String) (chunks : List ByteChunk) :
    (s.run_tts text (VendorStream.mk chunks true)).2 = true
      ∧ (outputFrames (s.run_tts text (VendorStream.mk chunks true)).1).count
          Frame.ttsStopped = 0 := by
  refine ⟨rfl, ?_⟩
  cases chunks with
  | nil => rfl
  | cons c rest =>
    have hb := outputFrames_ttsLoop_false s._sample_rate c rest
    have key : outputFrames (s.run_tts text (VendorStream.mk (c :: rest) true)).1
        = outputFrames (ttsLoop s._sample_rate (c :: rest) false) := by
      simp [ElevenLabsTTSService.run_tts, outputFrames, List.filterMap_append,
        List.filterMap_cons]
    rw [key, hb]
    simp [List.count_cons, List.count_eq_zero, List.mem_map]

/-- C8: `set_model` overwrites only `_model` and `set_voice` only
`_voice_id`; every other field is unchanged, and neither operation
performs any network effect.  Both embedded operations are total
functions: there is no error path. -/
theorem set_model_set_voice_pure_updates (s : ElevenLabsTTSService) (m v : String) :
    ((s.set_model m).1._model = m
      ∧ (s.set_model m).1._voice_id = s._voice_id
      ∧ (s.set_model m).1._params = s._params
      ∧ (s.set_model m).1._voice_settings = s._voice_settings
      ∧ (s.set_model m).1._client = s._client
      ∧ (s.set_model m).1._optimize_streaming_latency = s._optimize_streaming_latency
      ∧ (s.set_model m).1._sample_rate = s._sample_rate
      ∧ networkEffects (s.set_model m).2 = [])
    ∧ ((s.set_voice v).1._voice_id = v
      ∧ (s.set_voice v).1._model = s._model
      ∧ (s.set_voice v).1._params = s._params
      ∧ (s.set_voice v).1._voice_settings = s._voice_settings
      ∧ (s.set_voice v).1._client = s._client
      ∧ (s.set_voice v).1._optimize_streaming_latency = s._optimize_streaming_latency
      ∧ (s.set_voice v).1._sample_rate = s._sample_rate
      ∧ networkEffects (s.set_voice v).2 = []) :=
  ⟨⟨rfl, rfl, rfl, rfl, rfl, rfl, rfl, rfl⟩,
   ⟨rfl, rfl, rfl, rfl, rfl, rfl, rfl, rfl⟩⟩

/-- C9: across any sequence of public operations after construction, the
stored sample rate and the output-format configuration stay exactly as
computed in the constructor, and every audio frame a subsequent
`run_tts` call yields is stamped with that construction-time rate. -/
theorem sample_rate_fixed_for_lifetime (api_key voice_id model : String)
    (voice_settings : Option VoiceSettings) (params : InputParams) (lat : Int)
    (ops : List AdapterOp) (text : String) (vendor : VendorStream) :
    (applyOps (ElevenLabsTTSService.init api_key voice_id model voice_settings params lat)
          ops)._sample_rate
        = sample_rate_from_output_format params.output_format
      ∧ (applyOps (ElevenLabsTTSService.init api_key voice_id model voice_settings params lat)
            ops)._params
          = params
      ∧ audioFrameRates
            ((applyOps (ElevenLabsTTSService.init api_key voice_id model voice_settings params lat)
                ops).run_tts text vendor).1
          = List.replicate vendor.chunks.length
              (sample_rate_from_output_format params.output_format) := by
  obtain ⟨h1, h2⟩ :=
    applyOps_preserves
      (ElevenLabsTTSService.init api_key voice_id model voice_settings params lat) ops
  refine ⟨h1, h2, ?_⟩
  obtain ⟨chunks, err⟩ := vendor
  have h := audioFrameRates_ttsLoop
    (sample_rate_from_output_format params.output_format) chunks false
  cases err <;>
    simp [ElevenLabsTTSService.run_tts, h1, audioFrameRates,
      List.filterMap_append, List.filterMap_cons] at h ⊢ <;>
    exact h

/-- C10: the output format of every `InputParams` value is one of the
four recognized strings, so the fallback branch of
`sample_rate_from_output_format` is never the branch taken for a
constructed adapter: the constructor's sample rate always comes from a
recognized case. -/
theorem fallback_branch_unreachable_from_init (p : InputParams)
    (api_key voice_id model : String) (voice_settings : Option VoiceSettings)
    (lat : Int) :
    (sample_rate_branch p.output_format).2 = false
      ∧ (ElevenLabsTTSService.init api_key voice_id model voice_settings p lat)._sample_rate
          = (sample_rate_branch p.output_format).1 := by
  obtain ⟨fmt, hv⟩ := p
  unfold validOutputFormat at hv
  simp only [Bool.or_eq_true, beq_iff_eq] at hv
  constructor
  · rcases hv with ((h | h) | h) | h <;> subst h <;> rfl
  · exact (sample_rate_branch_fst fmt).symm
